import Mathlib

/-!
Verification of the performance-counter handle in `src/event/fd.rs`
(`perf-rust`).  The file is a shallow embedding: the external syscall
surface (`perf_event_open`, `ioctl`, the read wrapper) is modelled as a
pure oracle `Kernel`, and every method of `FileDesc` is translated to a
Lean function that returns its Rust result together with the list of
kernel-boundary calls it issued, so that "issues exactly one call" style
properties are statable.
-/

namespace PerfRust

/-- Error kinds used by the handle operations in `fd.rs`
(the `SysErr` enum is declared in `event/utils.rs`; its variants used by
`fd.rs` are `IoFail`, `IoArg`, `IoId` and `ReadFail`). -/
inductive SysErr
  | IoFail
  | IoArg
  | IoId
  | ReadFail
deriving DecidableEq, Repr

/-- Control-request codes `sys::ENABLE`, `sys::DISABLE`, `sys::REFRESH`,
`sys::RESET`, `sys::PERIOD`, `sys::ID` from the generated bindings.
They are opaque numeric constants to the core, so they are modelled as an
enumeration; only their identity matters in `fd.rs`. -/
inductive Ctl
  | ENABLE
  | DISABLE
  | REFRESH
  | RESET
  | PERIOD
  | ID
deriving DecidableEq, Repr

/-- Event descriptor `perf_event_attr` (external and opaque to the core:
`fd.rs` only forwards it to `perf_event_open`).  Modelled as an opaque
blob carrying a single abstract payload. -/
structure perf_event_attr where
  raw : Nat
deriving DecidableEq, Repr

/-- Calls observable at the kernel boundary.  `ioctlCall` records the
descriptor, the control code and the argument value: the literal `0` for
`enable`/`disable`/`reset`, the pointed-to count or interval for
`refresh`/`overflow_period`, and the initial value `0` of the
out-parameter for `id`. -/
inductive KCall
  | openCall (event : perf_event_attr) (pid cpu group_fd flags : Int)
  | ioctlCall (fd : Int) (code : Ctl) (arg : Nat)
  | readCall (fd : Int)
  | closeCall (fd : Int)
deriving DecidableEq, BEq, Repr

/-- Pure oracle for the external syscall layer.  `openRes` is the `i32`
value produced by `perf_event_open` (an invalid reference is `-1`);
`ioctlRes` is the signed return code of `ioctl` (`-1` on failure);
`ioctlOut` is the value the kernel leaves in the out-parameter of the
`ID` request; `readRes` is the signed value produced by the read
wrapper (`-1` on failure). -/
structure Kernel where
  openRes : perf_event_attr → Int → Int → Int → Int → Int
  ioctlRes : Int → Ctl → Nat → Int
  ioctlOut : Int → Ctl → Nat
  readRes : Int → Int

/-- Embedding of `pub struct FileDesc(i32);` — the handle stores one raw
file descriptor.  Methods in `fd.rs` take `&self`, so their embeddings
below take the handle immutably and return no updated handle. -/
structure FileDesc where
  fd : Int
deriving DecidableEq, Repr

/-- Embedding of `FileDesc::new`: one `perf_event_open` call with flags
literal `0`; a `-1` return is a panic in the source, modelled as `none`;
otherwise the handle stores exactly the returned reference. -/
def FileDesc.new (K : Kernel) (event : perf_event_attr)
    (pid cpu group_fd : Int) : Option FileDesc × List KCall :=
  let ret : Int := K.openRes event pid cpu group_fd 0
  (if ret = -1 then none else some ⟨ret⟩,
   [KCall.openCall event pid cpu group_fd 0])

/-- Embedding of `FileDesc::enable`: `ioctl(fd, ENABLE, 0)`, failing with
`SysErr::IoFail` exactly when the call returns `-1`. -/
def FileDesc.enable (K : Kernel) (self : FileDesc) :
    Except SysErr Unit × List KCall :=
  (if K.ioctlRes self.fd Ctl.ENABLE 0 = -1 then Except.error SysErr.IoFail
   else Except.ok (),
   [KCall.ioctlCall self.fd Ctl.ENABLE 0])

/-- Embedding of `FileDesc::disable`: `ioctl(fd, DISABLE, 0)`. -/
def FileDesc.disable (K : Kernel) (self : FileDesc) :
    Except SysErr Unit × List KCall :=
  (if K.ioctlRes self.fd Ctl.DISABLE 0 = -1 then Except.error SysErr.IoFail
   else Except.ok (),
   [KCall.ioctlCall self.fd Ctl.DISABLE 0])

/-- Embedding of `FileDesc::refresh`: `count == 0` is rejected with
`SysErr::IoArg` before any kernel call; otherwise one
`ioctl(fd, REFRESH, &count)` call, failing with `SysErr::IoFail` exactly
when it returns `-1`. -/
def FileDesc.refresh (K : Kernel) (self : FileDesc) (count : Nat) :
    Except SysErr Unit × List KCall :=
  if count = 0 then
    (Except.error SysErr.IoArg, [])
  else
    (if K.ioctlRes self.fd Ctl.REFRESH count = -1 then
       Except.error SysErr.IoFail
     else Except.ok (),
     [KCall.ioctlCall self.fd Ctl.REFRESH count])

/-- Embedding of `FileDesc::reset`: `ioctl(fd, RESET, 0)`. -/
def FileDesc.reset (K : Kernel) (self : FileDesc) :
    Except SysErr Unit × List KCall :=
  (if K.ioctlRes self.fd Ctl.RESET 0 = -1 then Except.error SysErr.IoFail
   else Except.ok (),
   [KCall.ioctlCall self.fd Ctl.RESET 0])

/-- Embedding of `FileDesc::overflow_period`: one
`ioctl(fd, PERIOD, &interval)` call with no local validation of
`interval`. -/
def FileDesc.overflow_period (K : Kernel) (self : FileDesc)
    (interval : Nat) : Except SysErr Unit × List KCall :=
  (if K.ioctlRes self.fd Ctl.PERIOD interval = -1 then
     Except.error SysErr.IoFail
   else Except.ok (),
   [KCall.ioctlCall self.fd Ctl.PERIOD interval])

/-- Embedding of `FileDesc::id`: one `ioctl(fd, ID, &ret)` call with
`ret` initially `0`; `-1` from the call is `SysErr::IoFail`, a written
identifier of `0` is `SysErr::IoId`, otherwise the identifier is
returned. -/
def FileDesc.id (K : Kernel) (self : FileDesc) :
    Except SysErr Nat × List KCall :=
  (if K.ioctlRes self.fd Ctl.ID 0 = -1 then Except.error SysErr.IoFail
   else if K.ioctlOut self.fd Ctl.ID = 0 then Except.error SysErr.IoId
   else Except.ok (K.ioctlOut self.fd Ctl.ID),
   [KCall.ioctlCall self.fd Ctl.ID 0])

/-- Embedding of `FileDesc::read`: one call to the read wrapper,
failing with `SysErr::ReadFail` exactly when it returns `-1`, and
otherwise returning the read value unchanged. -/
def FileDesc.read (K : Kernel) (self : FileDesc) :
    Except SysErr Int × List KCall :=
  (if K.readRes self.fd = -1 then Except.error SysErr.ReadFail
   else Except.ok (K.readRes self.fd),
   [KCall.readCall self.fd])

/-- Result of a Rust computation that may panic (`todo!()` diverges). -/
inductive PanicOr (α : Type)
  | panicked
  | value (a : α)

/-- Embedding of `FileDesc::set_output`: the body is `todo!()`, so it
panics unconditionally and issues no kernel call. -/
def FileDesc.set_output (_K : Kernel) (_self : FileDesc) :
    PanicOr (Except SysErr Unit) × List KCall :=
  (PanicOr.panicked, [])

/-- Embedding of `FileDesc::ignore_output`: body `todo!()`. -/
def FileDesc.ignore_output (_K : Kernel) (_self : FileDesc) :
    PanicOr (Except SysErr Unit) × List KCall :=
  (PanicOr.panicked, [])

/-- Embedding of `FileDesc::pause_output`: body `todo!()`. -/
def FileDesc.pause_output (_K : Kernel) (_self : FileDesc) :
    PanicOr (Except SysErr Unit) × List KCall :=
  (PanicOr.panicked, [])

/-- Embedding of `FileDesc::resume_output`: body `todo!()`. -/
def FileDesc.resume_output (_K : Kernel) (_self : FileDesc) :
    PanicOr (Except SysErr Unit) × List KCall :=
  (PanicOr.panicked, [])

/-- Embedding of `FileDesc::modify_attributes`: body `todo!()`. -/
def FileDesc.modify_attributes (_K : Kernel) (_self : FileDesc)
    (_event : perf_event_attr) :
    PanicOr (Except SysErr Unit) × List KCall :=
  (PanicOr.panicked, [])

/-- Labels for the implemented control/read operations of the handle,
used to reason about arbitrary sequences of operations. -/
inductive Op
  | enableOp
  | disableOp
  | resetOp
  | refreshOp (count : Nat)
  | periodOp (interval : Nat)
  | idOp
  | readOp
deriving DecidableEq, Repr

/-- Kernel-boundary trace of one operation on a handle. -/
def opCalls (K : Kernel) (self : FileDesc) : Op → List KCall
  | Op.enableOp => (FileDesc.enable K self).2
  | Op.disableOp => (FileDesc.disable K self).2
  | Op.resetOp => (FileDesc.reset K self).2
  | Op.refreshOp count => (FileDesc.refresh K self count).2
  | Op.periodOp interval => (FileDesc.overflow_period K self interval).2
  | Op.idOp => (FileDesc.id K self).2
  | Op.readOp => (FileDesc.read K self).2

/-- Kernel-boundary trace of a sequence of operations on a handle
(methods take `&self`, so the same handle value is used throughout). -/
def runCalls (K : Kernel) (self : FileDesc) : List Op → List KCall
  | [] => []
  | op :: ops => opCalls K self op ++ runCalls K self ops

/-- Descriptor a kernel-boundary call is issued against (`none` for the
open call, which creates the descriptor). -/
def KCall.target : KCall → Option Int
  | KCall.openCall _ _ _ _ _ => none
  | KCall.ioctlCall fd _ _ => some fd
  | KCall.readCall fd => some fd
  | KCall.closeCall fd => some fd

/-- Whether a kernel-boundary call releases a descriptor. -/
def KCall.isClose : KCall → Bool
  | KCall.closeCall _ => true
  | _ => false

/-- Modelled from the spec: `src/event/fd.rs` declares `FileDesc` and its
methods but contains no `Drop` implementation, so the release of the
stored reference at end of scope is not in the sources under `src/`.
Following the spec — destruction "releases the kernel-object reference
exactly once" — destruction is modelled as issuing one close of the
stored descriptor. -/
def FileDesc.drop (self : FileDesc) : List KCall :=
  [KCall.closeCall self.fd]

/-- Concrete oracle used to instantiate theorems with hypotheses:
every call succeeds, the open call yields descriptor `7`, the `ID`
request writes `5`, the read yields `42`. -/
def testKernel : Kernel :=
  ⟨fun _ _ _ _ _ => 7, fun _ _ _ => 0, fun _ _ => 5, fun _ => 42⟩

/-- Concrete handle used to instantiate theorems. -/
def testFd : FileDesc := ⟨7⟩

/-- Concrete event descriptor used to instantiate theorems. -/
def testAttr : perf_event_attr := ⟨0⟩

/-- Helper: failure and success of the common
`if r = -1 then Err(IoFail) else Ok(())` result shape. -/
theorem ioctl_unit_spec (r : Int) :
    ((if r = -1 then Except.error SysErr.IoFail else Except.ok ()) =
        (Except.error SysErr.IoFail : Except SysErr Unit) ↔ r = -1) ∧
    ((if r = -1 then Except.error SysErr.IoFail else Except.ok ()) =
        (Except.ok () : Except SysErr Unit) ↔ r ≠ -1) := by
  by_cases h : r = -1 <;> simp [h]

/-- Helper: no operation trace contains a close call. -/
theorem countP_isClose_opCalls (K : Kernel) (self : FileDesc) (op : Op) :
    (opCalls K self op).countP (fun c => KCall.isClose c) = 0 := by
  cases op with
  | enableOp => rfl
  | disableOp => rfl
  | resetOp => rfl
  | refreshOp count =>
      by_cases hc : count = 0 <;>
        simp [opCalls, FileDesc.refresh, hc, KCall.isClose]
  | periodOp interval => rfl
  | idOp => rfl
  | readOp => rfl

/-- Helper: no operation-sequence trace contains a close call. -/
theorem countP_isClose_runCalls (K : Kernel) (self : FileDesc) (ops : List Op) :
    (runCalls K self ops).countP (fun c => KCall.isClose c) = 0 := by
  induction ops with
  | nil => rfl
  | cons op ops ih =>
      simp [runCalls, List.countP_append, countP_isClose_opCalls, ih]

/-- Helper: every call an operation issues targets the handle's stored
descriptor. -/
theorem opCalls_target_self (K : Kernel) (self : FileDesc) (op : Op) :
    (opCalls K self op).all (fun c => KCall.target c == some self.fd) = true := by
  cases op with
  | enableOp => simp [opCalls, FileDesc.enable, KCall.target]
  | disableOp => simp [opCalls, FileDesc.disable, KCall.target]
  | resetOp => simp [opCalls, FileDesc.reset, KCall.target]
  | refreshOp count =>
      by_cases hc : count = 0 <;>
        simp [opCalls, FileDesc.refresh, hc, KCall.target]
  | periodOp interval => simp [opCalls, FileDesc.overflow_period, KCall.target]
  | idOp => simp [opCalls, FileDesc.id, KCall.target]
  | readOp => simp [opCalls, FileDesc.read, KCall.target]

/-- Helper: every call in an operation-sequence trace targets the
handle's stored descriptor. -/
theorem runCalls_target_self (K : Kernel) (self : FileDesc) (ops : List Op) :
    (runCalls K self ops).all (fun c => KCall.target c == some self.fd) = true := by
  induction ops with
  | nil => rfl
  | cons op ops ih =>
      simp [runCalls, List.all_append, opCalls_target_self, ih]

/-- C1: `refresh(0)` returns the argument-validation failure
`SysErr::IoArg` and issues no kernel-boundary call at all. -/
theorem refresh_zero_rejected_before_kernel (K : Kernel) (self : FileDesc) :
    FileDesc.refresh K self 0 = (Except.error SysErr.IoArg, []) := rfl

/-- C2: `id()` fails with `SysErr::IoId` iff the control call succeeds
(does not return `-1`) and the written identifier is `0`; it fails with
`SysErr::IoFail` iff the control call returns `-1`; in every other case
it returns `Ok` with the nonzero identifier. -/
theorem id_failure_classification (K : Kernel) (self : FileDesc) :
    ((FileDesc.id K self).1 = Except.error SysErr.IoId ↔
      (K.ioctlRes self.fd Ctl.ID 0 ≠ -1 ∧ K.ioctlOut self.fd Ctl.ID = 0)) ∧
    ((FileDesc.id K self).1 = Except.error SysErr.IoFail ↔
      K.ioctlRes self.fd Ctl.ID 0 = -1) ∧
    (K.ioctlRes self.fd Ctl.ID 0 ≠ -1 → K.ioctlOut self.fd Ctl.ID ≠ 0 →
      (FileDesc.id K self).1 = Except.ok (K.ioctlOut self.fd Ctl.ID)) := by
  by_cases h1 : K.ioctlRes self.fd Ctl.ID 0 = -1 <;>
    by_cases h2 : K.ioctlOut self.fd Ctl.ID = 0 <;>
      simp [FileDesc.id, h1, h2]

/-- Witness for C2 at a concrete oracle and handle. -/
theorem id_failure_classification_witness :
    ((FileDesc.id testKernel testFd).1 = Except.error SysErr.IoId ↔
      (testKernel.ioctlRes testFd.fd Ctl.ID 0 ≠ -1 ∧
        testKernel.ioctlOut testFd.fd Ctl.ID = 0)) ∧
    ((FileDesc.id testKernel testFd).1 = Except.error SysErr.IoFail ↔
      testKernel.ioctlRes testFd.fd Ctl.ID 0 = -1) ∧
    (testKernel.ioctlRes testFd.fd Ctl.ID 0 ≠ -1 →
      testKernel.ioctlOut testFd.fd Ctl.ID ≠ 0 →
      (FileDesc.id testKernel testFd).1 =
        Except.ok (testKernel.ioctlOut testFd.fd Ctl.ID)) :=
  id_failure_classification testKernel testFd

/-- C3: construction issues exactly one open call with flags literal
`0`; it fails (returns no handle) iff the open call returns `-1`; and
the handle it returns on success stores exactly the returned
reference. -/
theorem new_open_contract (K : Kernel) (event : perf_event_attr)
    (pid cpu group_fd : Int) :
    (FileDesc.new K event pid cpu group_fd).2 =
      [KCall.openCall event pid cpu group_fd 0] ∧
    ((FileDesc.new K event pid cpu group_fd).1 = none ↔
      K.openRes event pid cpu group_fd 0 = -1) ∧
    (FileDesc.new K event pid cpu group_fd).1.map FileDesc.fd =
      (if K.openRes event pid cpu group_fd 0 = -1 then none
       else some (K.openRes event pid cpu group_fd 0)) := by
  by_cases hr : K.openRes event pid cpu group_fd 0 = -1 <;>
    simp [FileDesc.new, hr]

/-- Witness for C3 at a concrete oracle. -/
theorem new_open_contract_witness :
    (FileDesc.new testKernel testAttr 0 (-1) (-1)).2 =
      [KCall.openCall testAttr 0 (-1) (-1) 0] ∧
    ((FileDesc.new testKernel testAttr 0 (-1) (-1)).1 = none ↔
      testKernel.openRes testAttr 0 (-1) (-1) 0 = -1) ∧
    (FileDesc.new testKernel testAttr 0 (-1) (-1)).1.map FileDesc.fd =
      (if testKernel.openRes testAttr 0 (-1) (-1) 0 = -1 then none
       else some (testKernel.openRes testAttr 0 (-1) (-1) 0)) :=
  new_open_contract testKernel testAttr 0 (-1) (-1)

/-- C4: `enable()`, `disable()`, `reset()` and `overflow_period`
each issue exactly one control call and fail with `SysErr::IoFail` iff
that call returns `-1`, succeeding on every other return value. -/
theorem ctl_single_call_sentinel (K : Kernel) (self : FileDesc)
    (interval : Nat) :
    ((FileDesc.enable K self).2 = [KCall.ioctlCall self.fd Ctl.ENABLE 0] ∧
      ((FileDesc.enable K self).1 = Except.error SysErr.IoFail ↔
        K.ioctlRes self.fd Ctl.ENABLE 0 = -1) ∧
      ((FileDesc.enable K self).1 = Except.ok () ↔
        K.ioctlRes self.fd Ctl.ENABLE 0 ≠ -1)) ∧
    ((FileDesc.disable K self).2 = [KCall.ioctlCall self.fd Ctl.DISABLE 0] ∧
      ((FileDesc.disable K self).1 = Except.error SysErr.IoFail ↔
        K.ioctlRes self.fd Ctl.DISABLE 0 = -1) ∧
      ((FileDesc.disable K self).1 = Except.ok () ↔
        K.ioctlRes self.fd Ctl.DISABLE 0 ≠ -1)) ∧
    ((FileDesc.reset K self).2 = [KCall.ioctlCall self.fd Ctl.RESET 0] ∧
      ((FileDesc.reset K self).1 = Except.error SysErr.IoFail ↔
        K.ioctlRes self.fd Ctl.RESET 0 = -1) ∧
      ((FileDesc.reset K self).1 = Except.ok () ↔
        K.ioctlRes self.fd Ctl.RESET 0 ≠ -1)) ∧
    ((FileDesc.overflow_period K self interval).2 =
        [KCall.ioctlCall self.fd Ctl.PERIOD interval] ∧
      ((FileDesc.overflow_period K self interval).1 =
          Except.error SysErr.IoFail ↔
        K.ioctlRes self.fd Ctl.PERIOD interval = -1) ∧
      ((FileDesc.overflow_period K self interval).1 = Except.ok () ↔
        K.ioctlRes self.fd Ctl.PERIOD interval ≠ -1)) := by
  exact ⟨⟨rfl, (ioctl_unit_spec _).1, (ioctl_unit_spec _).2⟩,
         ⟨rfl, (ioctl_unit_spec _).1, (ioctl_unit_spec _).2⟩,
         ⟨rfl, (ioctl_unit_spec _).1, (ioctl_unit_spec _).2⟩,
         ⟨rfl, (ioctl_unit_spec _).1, (ioctl_unit_spec _).2⟩⟩

/-- Witness for C4 at a concrete oracle and handle. -/
theorem ctl_single_call_sentinel_witness :
    ((FileDesc.enable testKernel testFd).2 =
        [KCall.ioctlCall testFd.fd Ctl.ENABLE 0] ∧
      ((FileDesc.enable testKernel testFd).1 = Except.error SysErr.IoFail ↔
        testKernel.ioctlRes testFd.fd Ctl.ENABLE 0 = -1) ∧
      ((FileDesc.enable testKernel testFd).1 = Except.ok () ↔
        testKernel.ioctlRes testFd.fd Ctl.ENABLE 0 ≠ -1)) ∧
    ((FileDesc.disable testKernel testFd).2 =
        [KCall.ioctlCall testFd.fd Ctl.DISABLE 0] ∧
      ((FileDesc.disable testKernel testFd).1 = Except.error SysErr.IoFail ↔
        testKernel.ioctlRes testFd.fd Ctl.DISABLE 0 = -1) ∧
      ((FileDesc.disable testKernel testFd).1 = Except.ok () ↔
        testKernel.ioctlRes testFd.fd Ctl.DISABLE 0 ≠ -1)) ∧
    ((FileDesc.reset testKernel testFd).2 =
        [KCall.ioctlCall testFd.fd Ctl.RESET 0] ∧
      ((FileDesc.reset testKernel testFd).1 = Except.error SysErr.IoFail ↔
        testKernel.ioctlRes testFd.fd Ctl.RESET 0 = -1) ∧
      ((FileDesc.reset testKernel testFd).1 = Except.ok () ↔
        testKernel.ioctlRes testFd.fd Ctl.RESET 0 ≠ -1)) ∧
    ((FileDesc.overflow_period testKernel testFd 4).2 =
        [KCall.ioctlCall testFd.fd Ctl.PERIOD 4] ∧
      ((FileDesc.overflow_period testKernel testFd 4).1 =
          Except.error SysErr.IoFail ↔
        testKernel.ioctlRes testFd.fd Ctl.PERIOD 4 = -1) ∧
      ((FileDesc.overflow_period testKernel testFd 4).1 = Except.ok () ↔
        testKernel.ioctlRes testFd.fd Ctl.PERIOD 4 ≠ -1)) :=
  ctl_single_call_sentinel testKernel testFd 4

/-- C5: for every `n ≥ 1`, `refresh(n)` issues exactly one control call
carrying `n`, and succeeds iff the underlying call does not return
`-1`. -/
theorem refresh_pos_single_call (K : Kernel) (self : FileDesc) (n : Nat)
    (hn : 1 ≤ n) :
    (FileDesc.refresh K self n).2 =
      [KCall.ioctlCall self.fd Ctl.REFRESH n] ∧
    ((FileDesc.refresh K self n).1 = Except.ok () ↔
      K.ioctlRes self.fd Ctl.REFRESH n ≠ -1) := by
  have h0 : ¬ n = 0 := by omega
  by_cases hr : K.ioctlRes self.fd Ctl.REFRESH n = -1 <;>
    simp [FileDesc.refresh, h0, hr]

/-- Witness for C5 at `n = 3`. -/
theorem refresh_pos_single_call_witness :
    (FileDesc.refresh testKernel testFd 3).2 =
      [KCall.ioctlCall testFd.fd Ctl.REFRESH 3] ∧
    ((FileDesc.refresh testKernel testFd 3).1 = Except.ok () ↔
      testKernel.ioctlRes testFd.fd Ctl.REFRESH 3 ≠ -1) :=
  refresh_pos_single_call testKernel testFd 3 (by decide)

/-- C6: `read()` invokes the read layer once and fails with
`SysErr::ReadFail` iff the underlying read returns `-1`; otherwise it
returns the read value unchanged. -/
theorem read_single_call_sentinel (K : Kernel) (self : FileDesc) :
    (FileDesc.read K self).2 = [KCall.readCall self.fd] ∧
    ((FileDesc.read K self).1 = Except.error SysErr.ReadFail ↔
      K.readRes self.fd = -1) ∧
    (K.readRes self.fd ≠ -1 →
      (FileDesc.read K self).1 = Except.ok (K.readRes self.fd)) := by
  by_cases hr : K.readRes self.fd = -1 <;> simp [FileDesc.read, hr]

/-- Witness for C6 at a concrete oracle and handle. -/
theorem read_single_call_sentinel_witness :
    (FileDesc.read testKernel testFd).2 = [KCall.readCall testFd.fd] ∧
    ((FileDesc.read testKernel testFd).1 = Except.error SysErr.ReadFail ↔
      testKernel.readRes testFd.fd = -1) ∧
    (testKernel.readRes testFd.fd ≠ -1 →
      (FileDesc.read testKernel testFd).1 =
        Except.ok (testKernel.readRes testFd.fd)) :=
  read_single_call_sentinel testKernel testFd

/-- C7: over the whole lifetime of a constructed handle — construction,
any sequence of control/read operations, then destruction — exactly one
close of a descriptor occurs (destruction modelled from the spec, see
`FileDesc.drop`). -/
theorem lifetime_single_release (K : Kernel) (event : perf_event_attr)
    (pid cpu group_fd : Int) (h : FileDesc) (ops : List Op)
    (_hc : (FileDesc.new K event pid cpu group_fd).1 = some h) :
    (((FileDesc.new K event pid cpu group_fd).2 ++ runCalls K h ops ++
        FileDesc.drop h).countP (fun c => KCall.isClose c)) = 1 := by
  rw [List.countP_append, List.countP_append, countP_isClose_runCalls]
  rfl

/-- Witness for C7: a constructed handle, three operations, one close. -/
theorem lifetime_single_release_witness :
    (((FileDesc.new testKernel testAttr 0 (-1) (-1)).2 ++
        runCalls testKernel testFd [Op.resetOp, Op.enableOp, Op.readOp] ++
        FileDesc.drop testFd).countP (fun c => KCall.isClose c)) = 1 :=
  lifetime_single_release testKernel testAttr 0 (-1) (-1) testFd
    [Op.resetOp, Op.enableOp, Op.readOp] (by decide)

/-- C8: the stored reference equals the value assigned by construction,
and every kernel-boundary call issued by any sequence of operations
targets exactly that reference. -/
theorem descriptor_ref_immutable (K : Kernel) (event : perf_event_attr)
    (pid cpu group_fd : Int) (h : FileDesc) (ops : List Op)
    (hc : (FileDesc.new K event pid cpu group_fd).1 = some h) :
    h.fd = K.openRes event pid cpu group_fd 0 ∧
    (runCalls K h ops).all (fun c => KCall.target c == some h.fd) = true := by
  refine ⟨?_, runCalls_target_self K h ops⟩
  by_cases hr : K.openRes event pid cpu group_fd 0 = -1
  · simp [FileDesc.new, hr] at hc
  · simp [FileDesc.new, hr] at hc
    subst hc
    rfl

/-- Witness for C8: concrete handle, three operations. -/
theorem descriptor_ref_immutable_witness :
    testFd.fd = testKernel.openRes testAttr 0 (-1) (-1) 0 ∧
    (runCalls testKernel testFd [Op.enableOp, Op.idOp, Op.refreshOp 2]).all
      (fun c => KCall.target c == some testFd.fd) = true :=
  descriptor_ref_immutable testKernel testAttr 0 (-1) (-1) testFd
    [Op.enableOp, Op.idOp, Op.refreshOp 2] (by decide)

/-- C9: the five unimplemented operations panic unconditionally
(`todo!()`), issuing no kernel call and returning no `Result` value. -/
theorem todo_methods_panic_no_call (K : Kernel) (self : FileDesc)
    (event : perf_event_attr) :
    FileDesc.set_output K self = (PanicOr.panicked, []) ∧
    FileDesc.ignore_output K self = (PanicOr.panicked, []) ∧
    FileDesc.pause_output K self = (PanicOr.panicked, []) ∧
    FileDesc.resume_output K self = (PanicOr.panicked, []) ∧
    FileDesc.modify_attributes K self event = (PanicOr.panicked, []) :=
  ⟨rfl, rfl, rfl, rfl, rfl⟩

/-- C10: `overflow_period` validates nothing locally: for every interval,
including `0`, it issues exactly one control call forwarding the
interval, and never returns `SysErr::IoArg`. -/
theorem overflow_period_no_arg_validation (K : Kernel) (self : FileDesc)
    (interval : Nat) :
    (FileDesc.overflow_period K self interval).2 =
      [KCall.ioctlCall self.fd Ctl.PERIOD interval] ∧
    (FileDesc.overflow_period K self interval).1 ≠
      Except.error SysErr.IoArg := by
  by_cases hr : K.ioctlRes self.fd Ctl.PERIOD interval = -1 <;>
    simp [FileDesc.overflow_period, hr]

/-- Witness for C10 at interval `0`. -/
theorem overflow_period_no_arg_validation_witness :
    (FileDesc.overflow_period testKernel testFd 0).2 =
      [KCall.ioctlCall testFd.fd Ctl.PERIOD 0] ∧
    (FileDesc.overflow_period testKernel testFd 0).1 ≠
      Except.error SysErr.IoArg :=
  overflow_period_no_arg_validation testKernel testFd 0

end PerfRust
